import Mathlib

/-!
# A verification model of burrowDB (`src/db.go`)

We give a shallow embedding of the package `burrowdb`: a tiny file-backed
object store.  `Put` reflects on its argument, resolves the identifier
field (named `ID` or tagged `burrowdb:"ID"`), JSON-encodes the record and
writes it to `<dir>/<typeName>/<idToken>`; `GetByID` reads that path back
and decodes into a pointer destination.

Modelling choices, each justified by the Go semantics of the source:
* A Go struct value is a `Rec`: its type name, the list of visible fields
  (name and the value of the `burrowdb` struct tag, `""` when absent, as
  `Tag.Get` returns), and the `%v` renderings of the field values.
  Identifier values only ever reach the file system through `%v`
  (`fmt.Sprintf("%s/%v", ...)`), so fields carry their rendered tokens.
* Go errors are modelled by `GoError`: `base` for `errors.New` sentinels,
  `wrap` for `fmt.Errorf("...: %w", err)` (unwrappable), and `format` for
  `fmt.Errorf("...: %v", err)` which keeps only the rendered text of the
  cause and is not unwrappable.
* The file system is explicit state (`FS`); the external collaborators the
  spec names (serialization codec, fallible directory/file operations) are
  a parameter `Env`, so theorems quantify over every codec and every
  failure behaviour of the byte store.
* `reflect.TypeOf(nil)` is the nil `reflect.Type`; calling `.Kind()` on it
  panics, which the model records as an explicit `panicked` outcome.
* Loop variables are per-iteration (Go >= 1.22), so the pointer taken to
  the loop variable in the resolution loop refers to the matched field.
-/

namespace BurrowDBModel

/-- Struct tag key, `structTagName` in the source. -/
def structTagName : String := "burrowdb"

/-- Name required for a field or struct tag to specify the ID field. -/
def idFieldName : String := "ID"

/-- A visible struct field: its name and the value of `Tag.Get "burrowdb"`
(`""` when the tag is absent, as in Go). -/
structure StructField where
  name : String
  tag : String
deriving DecidableEq, Repr

/-- A Go struct value: type name, visible fields, and the `%v` renderings of
the field values (parallel to `fields`). -/
structure Rec where
  typeName : String
  fields : List StructField
  vals : List String
deriving DecidableEq, Repr

/-- `reflect.Value.FieldByName`: the rendered value of the first field with
the given name (`""` for the zero `reflect.Value` when absent). -/
def Rec.fieldByName (r : Rec) (n : String) : String :=
  match (r.fields.zip r.vals).find? (fun p => p.1.name == n) with
  | some p => p.2
  | none => ""

/-- Kinds a non-nil, non-struct, non-pointer Go value can have at top level. -/
inductive OtherKind where
  | intK | stringK | boolK | floatK | sliceK | mapK | chanK | funcK
deriving DecidableEq, Repr

/-- A Go `any` argument as the source inspects it: the untyped nil
interface, a struct value, a pointer to a struct, or a value of any other
kind (carrying its `%v` rendering). -/
inductive GoVal where
  | nilV : GoVal
  | structV : Rec → GoVal
  | ptrV : Rec → GoVal
  | otherV : OtherKind → String → GoVal
deriving DecidableEq, Repr

/-- Go error values: `errors.New` sentinels, `%w` wrapping (unwrappable to
the cause), and `%v` formatting (only the rendered text survives). -/
inductive GoError where
  | base : String → GoError
  | wrap : String → GoError → GoError
  | format : String → String → GoError
deriving DecidableEq, Repr

/-- `Error()`: the rendered message. `fmt.Errorf("p%w", e)` and
`fmt.Errorf("p%v", e)` both render as `p` followed by `e.Error()`. -/
def GoError.errString : GoError → String
  | .base m => m
  | .wrap p c => p ++ c.errString
  | .format p cm => p ++ cm

/-- `errors.Unwrap`: only `%w`-built errors expose a cause. -/
def GoError.unwrap : GoError → Option GoError
  | .wrap _ c => some c
  | _ => none

/-- `errors.Is` for sentinel targets: equality somewhere along the unwrap
chain. -/
def GoError.is : GoError → GoError → Bool
  | e, target =>
    e == target ||
      match e with
      | .wrap _ c => c.is target
      | _ => false

def ErrInvalidValueType : GoError := .base "invalid value type"
def ErrNoIDField : GoError := .base "value has no ID field"
def ErrMultipleIDFields : GoError := .base "value has multiple ID fields"
def ErrNoSuchEntity : GoError := .base "no such entity exists"
def ErrNonPointerDst : GoError := .base "dst is not a pointer"

/-- `os.ErrNotExist`. -/
def osErrNotExist : GoError := .base "file does not exist"

/-- The byte store: existing directories and files (an association list;
the most recent write for a path is listed first). -/
structure FS where
  dirs : List String
  files : List (String × List Nat)
deriving DecidableEq, Repr

/-- Current contents at a path, if any. -/
def FS.lookup (fs : FS) (p : String) : Option (List Nat) :=
  (fs.files.find? (fun e => e.1 == p)).map (fun e => e.2)

/-- `os.WriteFile`: full overwrite of the contents at the path. -/
def FS.write (fs : FS) (p : String) (d : List Nat) : FS :=
  ⟨fs.dirs, (p, d) :: fs.files⟩

/-- `os.MkdirAll`: idempotent create-if-absent. -/
def FS.mkdirAll (fs : FS) (p : String) : FS :=
  if p ∈ fs.dirs then fs else ⟨p :: fs.dirs, fs.files⟩

/-- The external collaborators, as the spec names them: the serialization
capability (`marshal` / `unmarshal`, which populates a destination record
from bytes) and the failure behaviour of the byte store operations
(`none` means the operation succeeds). -/
structure Env where
  marshal : Rec → Except GoError (List Nat)
  unmarshal : List Nat → Rec → Except GoError Rec
  mkdirFail : FS → String → Option GoError
  writeFail : FS → String → List Nat → Option GoError
  readFail : FS → String → Option GoError

/-- The store handle: `dir` is the root directory. -/
structure BurrowDB where
  dir : String
deriving DecidableEq, Repr

/-- `fmt.Sprintf("%s/%s", db.dir, typeName)`. -/
def typeDirOf (db : BurrowDB) (typeName : String) : String :=
  db.dir ++ "/" ++ typeName

/-- `fmt.Sprintf("%s/%v", typeDir, idValue)`: the full entity path
`<root>/<type-name>/<identifier-token>`. -/
def entityPath (db : BurrowDB) (typeName token : String) : String :=
  typeDirOf db typeName ++ "/" ++ token

/-- The identifier-resolution loop of `Put` (db.go lines 77-94): scan the
visible fields in declared order keeping the match found so far; a second
distinct match aborts with `ErrMultipleIDFields`.  A field named `ID`
is not re-examined for its tag (the `continue`). -/
def findIDLoop : List StructField → Option StructField →
    Except GoError (Option StructField)
  | [], acc => .ok acc
  | f :: rest, acc =>
    if f.name == idFieldName then
      match acc with
      | some _ => .error ErrMultipleIDFields
      | none => findIDLoop rest (some f)
    else if f.tag == idFieldName then
      match acc with
      | some _ => .error ErrMultipleIDFields
      | none => findIDLoop rest (some f)
    else
      findIDLoop rest acc

/-- The loop followed by the nil check (db.go lines 96-98). -/
def resolveIDField (fields : List StructField) : Except GoError StructField :=
  match findIDLoop fields none with
  | .error e => .error e
  | .ok none => .error ErrNoIDField
  | .ok (some f) => .ok f

instance : DecidableEq (Except GoError Unit) := fun a b =>
  match a, b with
  | .error e1, .error e2 =>
    if h : e1 = e2 then .isTrue (by rw [h]) else .isFalse (by simp [h])
  | .ok _, .ok _ => .isTrue rfl
  | .error _, .ok _ => .isFalse (by simp)
  | .ok _, .error _ => .isFalse (by simp)

/-- Outcome of `Put`: a panic, or an error result together with the file
system state after the call. -/
inductive PutRes where
  | panicked : PutRes
  | res : Except GoError Unit → FS → PutRes
deriving DecidableEq

/-- `(*BurrowDB).Put` (db.go lines 71-122). -/
def BurrowDB.Put (env : Env) (db : BurrowDB) (fs : FS) (v : GoVal) : PutRes :=
  match v with
  | .nilV => .panicked
  | .ptrV _ => .res (.error ErrInvalidValueType) fs
  | .otherV _ _ => .res (.error ErrInvalidValueType) fs
  | .structV r =>
    match resolveIDField r.fields with
    | .error e => .res (.error e) fs
    | .ok idField =>
      match env.marshal r with
      | .error mErr =>
        .res (.error (.format "unable to marshal value: " mErr.errString)) fs
      | .ok data =>
        let typeDir := typeDirOf db r.typeName
        match env.mkdirFail fs typeDir with
        | some e => .res (.error (.wrap "unable to create type dir: " e)) fs
        | none =>
          let fs1 := fs.mkdirAll typeDir
          let filename := entityPath db r.typeName (r.fieldByName idField.name)
          match env.writeFail fs1 filename data with
          | some e => .res (.error (.wrap "unable to write file: " e)) fs1
          | none => .res (.ok ()) (fs1.write filename data)

/-- Outcome of `GetByID`: a panic, an error, or the populated destination. -/
inductive GetRes where
  | panicked : GetRes
  | failed : GoError → GetRes
  | got : Rec → GetRes
deriving DecidableEq

/-- The path `GetByID` derives (db.go line 133): it uses only the element
type name of the destination pointer and the rendered id. -/
def getFilename (db : BurrowDB) (pointee : Rec) (id : String) : String :=
  entityPath db pointee.typeName id

/-- `os.ReadFile`: an absent path fails with an error wrapping
`os.ErrNotExist`; a present path may still fail per the environment. -/
def osReadFile (env : Env) (fs : FS) (p : String) :
    Except GoError (List Nat) :=
  match fs.lookup p with
  | none => .error (.wrap ("open " ++ p ++ ": ") osErrNotExist)
  | some data =>
    match env.readFail fs p with
    | some e => .error e
    | none => .ok data

/-- `(*BurrowDB).GetByID` (db.go lines 126-149).  `id` is the `%v`
rendering of the identifier argument. -/
def BurrowDB.GetByID (env : Env) (db : BurrowDB) (fs : FS) (dst : GoVal)
    (id : String) : GetRes :=
  match dst with
  | .nilV => .panicked
  | .structV _ => .failed ErrNonPointerDst
  | .otherV _ _ => .failed ErrNonPointerDst
  | .ptrV pointee =>
    let filename := getFilename db pointee id
    match osReadFile env fs filename with
    | .error e =>
      if e.is osErrNotExist then .failed ErrNoSuchEntity
      else .failed (.wrap "unable to get entity: " e)
    | .ok data =>
      match env.unmarshal data pointee with
      | .error e => .failed (.wrap "unable to unmarshal data: " e)
      | .ok r => .got r

/-- A field is identifier-eligible: named `ID` or tagged `burrowdb:"ID"`. -/
def matchesID (f : StructField) : Bool :=
  f.name == idFieldName || f.tag == idFieldName

/-! ## Concrete instances (mirroring `src/cmd/main.go`) -/

/-- A store rooted at the default directory `burrow`. -/
def db0 : BurrowDB := ⟨"burrow"⟩

/-- The empty byte store. -/
def fs0 : FS := ⟨[], []⟩

/-- The record of `src/cmd/main.go`: `newType{Str: "string", Num: 123,
Float: 3.14}` with `Num` tagged `burrowdb:"ID"`, type name `Widget`. -/
def recW : Rec :=
  ⟨"Widget", [⟨"Str", ""⟩, ⟨"Num", "ID"⟩, ⟨"Float", ""⟩],
    ["string", "123", "3.14"]⟩

/-- The same type with a different `Str` value and the same identifier. -/
def recW2 : Rec :=
  ⟨"Widget", [⟨"Str", ""⟩, ⟨"Num", "ID"⟩, ⟨"Float", ""⟩],
    ["newer", "123", "3.14"]⟩

/-- A fresh zero value of the `Widget` type. -/
def freshW : Rec :=
  ⟨"Widget", [⟨"Str", ""⟩, ⟨"Num", "ID"⟩, ⟨"Float", ""⟩], ["", "0", "0"]⟩

/-- Two distinct fields both eligible as identifier. -/
def recBad : Rec := ⟨"Bad", [⟨"A", "ID"⟩, ⟨"B", "ID"⟩], ["1", "2"]⟩

/-- No identifier-eligible field. -/
def recEmpty : Rec := ⟨"Empty", [⟨"X", ""⟩], ["5"]⟩

/-- Two record types with colliding identifier tokens. -/
def recA : Rec := ⟨"Alpha", [⟨"ID", ""⟩], ["123"]⟩

def recB : Rec := ⟨"Beta", [⟨"ID", ""⟩], ["123"]⟩

/-- A concrete environment with a reliable byte store and an injective
codec distinguishing `recW2` from everything else. -/
def envRT : Env :=
  ⟨fun r => .ok (if r = recW2 then [2] else [1]),
   fun bs _ => .ok (if bs = [2] then recW2 else recW),
   fun _ _ => none, fun _ _ _ => none, fun _ _ => none⟩

/-- An environment whose codec rejects every value with cause `boom`. -/
def envBoom : Env :=
  ⟨fun _ => .error (.base "boom"),
   fun _ d => .ok d,
   fun _ _ => none, fun _ _ _ => none, fun _ _ => none⟩

/-- The byte store after `Put envRT db0 fs0 (.structV recW)`. -/
def fsW : FS := ⟨["burrow/Widget"], [("burrow/Widget/123", [1])]⟩

/-- The byte store after additionally `Put envRT db0 fsW (.structV recW2)`. -/
def fsW2 : FS :=
  ⟨["burrow/Widget"],
    [("burrow/Widget/123", [2]), ("burrow/Widget/123", [1])]⟩

/-- The byte store after `Put envRT db0 fs0 (.structV recA)`. -/
def fsA : FS := ⟨["burrow/Alpha"], [("burrow/Alpha/123", [1])]⟩

/-- The byte store after additionally `Put envRT db0 fsA (.structV recB)`. -/
def fsAB : FS :=
  ⟨["burrow/Beta", "burrow/Alpha"],
    [("burrow/Beta/123", [1]), ("burrow/Alpha/123", [1])]⟩

/-! ## Lemmas about the identifier-resolution loop -/

lemma findIDLoop_cons (f : StructField) (rest : List StructField)
    (acc : Option StructField) :
    findIDLoop (f :: rest) acc =
      if matchesID f then
        match acc with
        | some _ => Except.error ErrMultipleIDFields
        | none => findIDLoop rest (some f)
      else findIDLoop rest acc := by
  simp only [findIDLoop, matchesID]
  by_cases h1 : f.name == idFieldName
  · simp [h1]
  · by_cases h2 : f.tag == idFieldName <;> simp [h1, h2]

lemma findIDLoop_of_filter_nil :
    ∀ (fields : List StructField) (acc : Option StructField),
      fields.filter matchesID = [] → findIDLoop fields acc = .ok acc := by
  intro fields
  induction fields with
  | nil => intro acc _; rfl
  | cons f rest ih =>
    intro acc h
    rw [List.filter_cons] at h
    by_cases hf : matchesID f
    · simp [hf] at h
    · simp only [hf, if_neg, Bool.false_eq_true, if_false] at h
      rw [findIDLoop_cons]
      simp only [hf, Bool.false_eq_true, if_false]
      exact ih acc h

lemma findIDLoop_some_of_filter_ne :
    ∀ (fields : List StructField) (f0 : StructField),
      fields.filter matchesID ≠ [] →
      findIDLoop fields (some f0) = .error ErrMultipleIDFields := by
  intro fields
  induction fields with
  | nil => intro f0 h; simp at h
  | cons f rest ih =>
    intro f0 h
    rw [findIDLoop_cons]
    by_cases hf : matchesID f
    · simp [hf]
    · simp only [hf, Bool.false_eq_true, if_false]
      apply ih
      rw [List.filter_cons] at h
      simpa [hf] using h

lemma findIDLoop_of_filter_single :
    ∀ (fields : List StructField) (f : StructField),
      fields.filter matchesID = [f] → findIDLoop fields none = .ok (some f) := by
  intro fields
  induction fields with
  | nil => intro f h; simp at h
  | cons g rest ih =>
    intro f h
    rw [List.filter_cons] at h
    rw [findIDLoop_cons]
    by_cases hg : matchesID g
    · simp only [hg, if_true]
      simp only [hg, if_true, List.cons.injEq] at h
      obtain ⟨hgf, hrest⟩ := h
      subst hgf
      exact findIDLoop_of_filter_nil rest (some g) hrest
    · simp only [hg, Bool.false_eq_true, if_false] at h ⊢
      exact ih f h

lemma findIDLoop_of_filter_multi :
    ∀ (fields : List StructField),
      2 ≤ (fields.filter matchesID).length →
      findIDLoop fields none = .error ErrMultipleIDFields := by
  intro fields
  induction fields with
  | nil => intro h; simp at h
  | cons g rest ih =>
    intro h
    rw [List.filter_cons] at h
    rw [findIDLoop_cons]
    by_cases hg : matchesID g
    · simp only [hg, if_true]
      apply findIDLoop_some_of_filter_ne
      intro hnil
      rw [hg, if_pos rfl, hnil] at h
      simp at h
    · simp only [hg, Bool.false_eq_true, if_false] at h ⊢
      exact ih h

lemma resolveIDField_of_filter_nil (fields : List StructField)
    (h : fields.filter matchesID = []) :
    resolveIDField fields = .error ErrNoIDField := by
  unfold resolveIDField
  rw [findIDLoop_of_filter_nil fields none h]

lemma resolveIDField_of_filter_single (fields : List StructField)
    (f : StructField) (h : fields.filter matchesID = [f]) :
    resolveIDField fields = .ok f := by
  unfold resolveIDField
  rw [findIDLoop_of_filter_single fields f h]

lemma resolveIDField_of_filter_multi (fields : List StructField)
    (h : 2 ≤ (fields.filter matchesID).length) :
    resolveIDField fields = .error ErrMultipleIDFields := by
  unfold resolveIDField
  rw [findIDLoop_of_filter_multi fields h]

/-! ## Lemmas about `Put` -/

lemma Put_structV_resolveErr (env : Env) (db : BurrowDB) (fs : FS) (r : Rec)
    (e : GoError) (h : resolveIDField r.fields = .error e) :
    BurrowDB.Put env db fs (.structV r) = .res (.error e) fs := by
  simp only [BurrowDB.Put, h]

lemma Put_structV_ok (env : Env) (db : BurrowDB) (fs : FS) (r : Rec)
    (idf : StructField) (data : List Nat)
    (hres : resolveIDField r.fields = .ok idf)
    (hm : env.marshal r = .ok data)
    (hmk : env.mkdirFail fs (typeDirOf db r.typeName) = none)
    (hw : env.writeFail (fs.mkdirAll (typeDirOf db r.typeName))
      (entityPath db r.typeName (r.fieldByName idf.name)) data = none) :
    BurrowDB.Put env db fs (.structV r) =
      .res (.ok ()) ((fs.mkdirAll (typeDirOf db r.typeName)).write
        (entityPath db r.typeName (r.fieldByName idf.name)) data) := by
  simp only [BurrowDB.Put, hres, hm, hmk, hw]

lemma Put_ok_shape (env : Env) (db : BurrowDB) (fs : FS) (r : Rec)
    (idf : StructField) (data : List Nat) (fs2 : FS)
    (hres : resolveIDField r.fields = .ok idf)
    (hm : env.marshal r = .ok data)
    (hput : BurrowDB.Put env db fs (.structV r) = .res (.ok ()) fs2) :
    fs2 = (fs.mkdirAll (typeDirOf db r.typeName)).write
        (entityPath db r.typeName (r.fieldByName idf.name)) data := by
  simp only [BurrowDB.Put, hres, hm] at hput
  cases hmk : env.mkdirFail fs (typeDirOf db r.typeName) with
  | some e => simp [hmk] at hput
  | none =>
    simp only [hmk] at hput
    cases hw : env.writeFail (fs.mkdirAll (typeDirOf db r.typeName))
        (entityPath db r.typeName (r.fieldByName idf.name)) data with
    | some e => simp [hw] at hput
    | none =>
      simp only [hw, PutRes.res.injEq] at hput
      exact hput.2.symm

/-! ## Lemmas about `GetByID` -/

lemma GetByID_absent (env : Env) (db : BurrowDB) (fs : FS) (p : Rec)
    (id : String) (h : fs.lookup (getFilename db p id) = none) :
    BurrowDB.GetByID env db fs (.ptrV p) id = .failed ErrNoSuchEntity := by
  simp only [BurrowDB.GetByID, osReadFile, h]
  rfl

lemma GetByID_read_fail (env : Env) (db : BurrowDB) (fs : FS) (p : Rec)
    (id : String) (data : List Nat) (e : GoError)
    (hl : fs.lookup (getFilename db p id) = some data)
    (hr : env.readFail fs (getFilename db p id) = some e)
    (hnis : e.is osErrNotExist = false) :
    BurrowDB.GetByID env db fs (.ptrV p) id =
      .failed (.wrap "unable to get entity: " e) := by
  simp only [BurrowDB.GetByID, osReadFile, hl, hr, hnis]
  simp [hnis]

lemma GetByID_unmarshal_fail (env : Env) (db : BurrowDB) (fs : FS) (p : Rec)
    (id : String) (data : List Nat) (e : GoError)
    (hl : fs.lookup (getFilename db p id) = some data)
    (hr : env.readFail fs (getFilename db p id) = none)
    (hu : env.unmarshal data p = .error e) :
    BurrowDB.GetByID env db fs (.ptrV p) id =
      .failed (.wrap "unable to unmarshal data: " e) := by
  simp only [BurrowDB.GetByID, osReadFile, hl, hr, hu]

lemma GetByID_ok (env : Env) (db : BurrowDB) (fs : FS) (p : Rec)
    (id : String) (data : List Nat) (rOut : Rec)
    (hl : fs.lookup (getFilename db p id) = some data)
    (hr : env.readFail fs (getFilename db p id) = none)
    (hu : env.unmarshal data p = .ok rOut) :
    BurrowDB.GetByID env db fs (.ptrV p) id = .got rOut := by
  simp only [BurrowDB.GetByID, osReadFile, hl, hr, hu]

/-! ## Lemmas about the file-system state -/

lemma FS.mkdirAll_files (fs : FS) (d : String) :
    (fs.mkdirAll d).files = fs.files := by
  unfold FS.mkdirAll
  split <;> rfl

lemma FS.lookup_mkdirAll (fs : FS) (d : String) (q : String) :
    (fs.mkdirAll d).lookup q = fs.lookup q := by
  unfold FS.lookup
  rw [FS.mkdirAll_files]

lemma FS.lookup_write_self (fs : FS) (p : String) (d : List Nat) :
    (fs.write p d).lookup p = some d := by
  simp [FS.write, FS.lookup, List.find?]

lemma FS.lookup_write_ne (fs : FS) (p q : String) (d : List Nat)
    (h : p ≠ q) : (fs.write p d).lookup q = fs.lookup q := by
  have hb : (p == q) = false := beq_eq_false_iff_ne.mpr h
  simp [FS.write, FS.lookup, List.find?, hb]

lemma GetByID_ptr_shape (env : Env) (db : BurrowDB) (fs : FS) (p : Rec)
    (id : String) :
    BurrowDB.GetByID env db fs (.ptrV p) id = .failed ErrNoSuchEntity ∨
    (∃ e, BurrowDB.GetByID env db fs (.ptrV p) id =
      .failed (.wrap "unable to get entity: " e)) ∨
    (∃ e, BurrowDB.GetByID env db fs (.ptrV p) id =
      .failed (.wrap "unable to unmarshal data: " e)) ∨
    (∃ r, BurrowDB.GetByID env db fs (.ptrV p) id = .got r) := by
  unfold BurrowDB.GetByID
  cases hrd : osReadFile env fs (getFilename db p id) with
  | error e =>
    by_cases hi : e.is osErrNotExist = true
    · left
      simp [hrd, hi]
    · right; left
      exact ⟨e, by simp [hrd, hi]⟩
  | ok data =>
    cases hu : env.unmarshal data p with
    | error e =>
      right; right; left
      exact ⟨e, by simp [hrd, hu]⟩
    | ok r =>
      right; right; right
      exact ⟨r, by simp [hrd, hu]⟩

/-! ## The path scheme -/

lemma entityPath_type_inj (db : BurrowDB) (t1 t2 k : String)
    (h : entityPath db t1 k = entityPath db t2 k) : t1 = t2 := by
  have hd := congrArg String.data h
  simp only [entityPath, typeDirOf, String.data_append, List.append_assoc] at hd
  have h1 := List.append_cancel_left hd
  have h2 := List.append_cancel_left h1
  exact congrArg String.mk (List.append_cancel_right h2)

/-! ## The claims -/

/-- C1: Round-trip.  For every record value `r` of a struct type whose
identifier resolution succeeds with field `idf` and whose identifier value
renders to token `k`, a successful `Put r` followed by `GetByID` with a
pointer to a fresh value of the same type and identifier `k` populates the
destination with a value deep-equal to `r`.  The serialization codec is
the external capability of the spec, so the statement carries its contract
at `r`: decoding the bytes `Put` encoded yields `r` back. -/
theorem C1_round_trip (env : Env) (db : BurrowDB) (fs fs1 : FS) (r : Rec)
    (idf : StructField) (data : List Nat) (k : String) (fresh : Rec)
    (hres : resolveIDField r.fields = .ok idf)
    (hk : r.fieldByName idf.name = k)
    (hm : env.marshal r = .ok data)
    (hput : BurrowDB.Put env db fs (.structV r) = .res (.ok ()) fs1)
    (hfresh : fresh.typeName = r.typeName)
    (hread : env.readFail fs1 (entityPath db r.typeName k) = none)
    (hcodec : env.unmarshal data fresh = .ok r) :
    BurrowDB.GetByID env db fs1 (.ptrV fresh) k = .got r := by
  have hshape := Put_ok_shape env db fs r idf data fs1 hres hm hput
  rw [hk] at hshape
  have hl : fs1.lookup (getFilename db fresh k) = some data := by
    unfold getFilename
    rw [hfresh, hshape]
    exact FS.lookup_write_self _ _ _
  have hr2 : env.readFail fs1 (getFilename db fresh k) = none := by
    unfold getFilename
    rw [hfresh]
    exact hread
  exact GetByID_ok env db fs1 fresh k data r hl hr2 hcodec

/-- C1 witness: the scenario of `src/cmd/main.go` with a concrete codec. -/
theorem C1_round_trip_witness :
    BurrowDB.GetByID envRT db0 fsW (.ptrV freshW) "123" = .got recW :=
  C1_round_trip envRT db0 fs0 fsW recW ⟨"Num", "ID"⟩ [1] "123" freshW
    rfl rfl rfl rfl rfl rfl rfl

/-- C2: Identifier resolution is a trichotomy, independent of field
declaration order: the outcome is classified by the number of
identifier-eligible visible fields (a permutation-invariant quantity).
With exactly one eligible field `Put` resolves that field and uses its
value as the storage token; with none it fails with `ErrNoIDField`; with
two or more it fails with `ErrMultipleIDFields` and never silently picks
the first match. -/
theorem C2_identifier_trichotomy (env : Env) (db : BurrowDB) (fs : FS)
    (r : Rec) :
    (r.fields.filter matchesID = [] →
      resolveIDField r.fields = .error ErrNoIDField ∧
      BurrowDB.Put env db fs (.structV r) = .res (.error ErrNoIDField) fs) ∧
    (∀ f, r.fields.filter matchesID = [f] →
      resolveIDField r.fields = .ok f ∧
      ∀ data, env.marshal r = .ok data →
        env.mkdirFail fs (typeDirOf db r.typeName) = none →
        env.writeFail (fs.mkdirAll (typeDirOf db r.typeName))
          (entityPath db r.typeName (r.fieldByName f.name)) data = none →
        BurrowDB.Put env db fs (.structV r) =
          .res (.ok ()) ((fs.mkdirAll (typeDirOf db r.typeName)).write
            (entityPath db r.typeName (r.fieldByName f.name)) data)) ∧
    (2 ≤ (r.fields.filter matchesID).length →
      resolveIDField r.fields = .error ErrMultipleIDFields ∧
      BurrowDB.Put env db fs (.structV r) =
        .res (.error ErrMultipleIDFields) fs) := by
  refine ⟨?_, ?_, ?_⟩
  · intro h
    have hres := resolveIDField_of_filter_nil r.fields h
    exact ⟨hres, Put_structV_resolveErr env db fs r _ hres⟩
  · intro f h
    have hres := resolveIDField_of_filter_single r.fields f h
    refine ⟨hres, ?_⟩
    intro data hm hmk hw
    exact Put_structV_ok env db fs r f data hres hm hmk hw
  · intro h
    have hres := resolveIDField_of_filter_multi r.fields h
    exact ⟨hres, Put_structV_resolveErr env db fs r _ hres⟩

/-- C2 witness: a type with two identifier-tagged fields is rejected with
the multiple-identifiers error, and the byte store argument is returned
unchanged. -/
theorem C2_identifier_trichotomy_witness :
    2 ≤ (recBad.fields.filter matchesID).length ∧
    resolveIDField recBad.fields = .error ErrMultipleIDFields ∧
    BurrowDB.Put envRT db0 fs0 (.structV recBad) =
      .res (.error ErrMultipleIDFields) fs0 :=
  ⟨by decide, (C2_identifier_trichotomy envRT db0 fs0 recBad).2.2 (by decide)⟩

/-- C3: Namespace separation.  Two records of distinct record types whose
identifiers render to the same token are stored at distinct paths
`<root>/<type-name>/<token>`, and after both writes each record's bytes
are intact at its own path: storing one never overwrites the other. -/
theorem C3_namespace_separation (env : Env) (db : BurrowDB)
    (fs fs1 fs2 : FS) (r1 r2 : Rec) (idf1 idf2 : StructField)
    (data1 data2 : List Nat) (k : String)
    (hne : r1.typeName ≠ r2.typeName)
    (hres1 : resolveIDField r1.fields = .ok idf1)
    (hres2 : resolveIDField r2.fields = .ok idf2)
    (hk1 : r1.fieldByName idf1.name = k)
    (hk2 : r2.fieldByName idf2.name = k)
    (hm1 : env.marshal r1 = .ok data1)
    (hm2 : env.marshal r2 = .ok data2)
    (hput1 : BurrowDB.Put env db fs (.structV r1) = .res (.ok ()) fs1)
    (hput2 : BurrowDB.Put env db fs1 (.structV r2) = .res (.ok ()) fs2) :
    entityPath db r1.typeName k ≠ entityPath db r2.typeName k ∧
    fs2.lookup (entityPath db r1.typeName k) = some data1 ∧
    fs2.lookup (entityPath db r2.typeName k) = some data2 := by
  have hpathne : entityPath db r1.typeName k ≠ entityPath db r2.typeName k :=
    fun h => hne (entityPath_type_inj db _ _ k h)
  have hs1 := Put_ok_shape env db fs r1 idf1 data1 fs1 hres1 hm1 hput1
  have hs2 := Put_ok_shape env db fs1 r2 idf2 data2 fs2 hres2 hm2 hput2
  rw [hk1] at hs1
  rw [hk2] at hs2
  refine ⟨hpathne, ?_, ?_⟩
  · rw [hs2, FS.lookup_write_ne _ _ _ _ (fun h => hpathne h.symm),
      FS.lookup_mkdirAll, hs1]
    exact FS.lookup_write_self _ _ _
  · rw [hs2]
    exact FS.lookup_write_self _ _ _

/-- C3 witness: types `Alpha` and `Beta`, both with identifier token
`123`, coexist after both writes. -/
theorem C3_namespace_separation_witness :
    entityPath db0 "Alpha" "123" ≠ entityPath db0 "Beta" "123" ∧
    fsAB.lookup (entityPath db0 "Alpha" "123") = some [1] ∧
    fsAB.lookup (entityPath db0 "Beta" "123") = some [1] :=
  C3_namespace_separation envRT db0 fs0 fsA fsAB recA recB
    ⟨"ID", ""⟩ ⟨"ID", ""⟩ [1] [1] "123"
    (by decide) rfl rfl rfl rfl rfl rfl rfl rfl

/-- C4 counterexample: the claim that the encoding error wraps the codec
error as an unwrappable cause is false.  With a codec failing with cause
`boom`, `Put` returns the error built with `%v` (db.go line 103): its
message carries the rendered text, but `errors.Unwrap` yields nothing and
`errors.Is` does not reach the cause, so the caller cannot unwrap it. -/
theorem C4_counterexample :
    BurrowDB.Put envBoom db0 fs0 (.structV recW) =
      .res (.error (.format "unable to marshal value: " "boom")) fs0 ∧
    GoError.unwrap (.format "unable to marshal value: " "boom") = none ∧
    GoError.is (.format "unable to marshal value: " "boom") (.base "boom")
      = false :=
  ⟨rfl, rfl, rfl⟩

/-- C4 amended: on encoding failure `Put` surfaces an error whose message
carries diagnostic context and the rendered text of the codec cause, but
built with `%v`, hence not unwrappable to the cause; every other internal
failure of `Put` (directory creation, file write) and of `GetByID`
(storage read, decode) is propagated wrapped with `%w`, with diagnostic
context and an unwrappable cause; no error is swallowed. -/
theorem C4_amended_error_propagation (env : Env) (db : BurrowDB) (fs : FS)
    (r : Rec) (idf : StructField) (c : GoError)
    (hres : resolveIDField r.fields = .ok idf)
    (hm : env.marshal r = .error c) :
    BurrowDB.Put env db fs (.structV r) =
      .res (.error (.format "unable to marshal value: " c.errString)) fs ∧
    (GoError.format "unable to marshal value: " c.errString).errString =
      "unable to marshal value: " ++ c.errString ∧
    (GoError.format "unable to marshal value: " c.errString).unwrap
      = none ∧
    (∀ env2 db2 fs2 r2 idf2 (data : List Nat) (e : GoError),
      resolveIDField r2.fields = .ok idf2 →
      env2.marshal r2 = .ok data →
      env2.mkdirFail fs2 (typeDirOf db2 r2.typeName) = some e →
      BurrowDB.Put env2 db2 fs2 (.structV r2) =
        .res (.error (.wrap "unable to create type dir: " e)) fs2 ∧
      (GoError.wrap "unable to create type dir: " e).unwrap = some e) ∧
    (∀ env2 db2 fs2 r2 idf2 (data : List Nat) (e : GoError),
      resolveIDField r2.fields = .ok idf2 →
      env2.marshal r2 = .ok data →
      env2.mkdirFail fs2 (typeDirOf db2 r2.typeName) = none →
      env2.writeFail (fs2.mkdirAll (typeDirOf db2 r2.typeName))
        (entityPath db2 r2.typeName (r2.fieldByName idf2.name)) data
        = some e →
      BurrowDB.Put env2 db2 fs2 (.structV r2) =
        .res (.error (.wrap "unable to write file: " e))
          (fs2.mkdirAll (typeDirOf db2 r2.typeName)) ∧
      (GoError.wrap "unable to write file: " e).unwrap = some e) ∧
    (∀ env2 db2 fs2 p (id : String) (data : List Nat) (e : GoError),
      fs2.lookup (getFilename db2 p id) = some data →
      env2.readFail fs2 (getFilename db2 p id) = some e →
      e.is osErrNotExist = false →
      BurrowDB.GetByID env2 db2 fs2 (.ptrV p) id =
        .failed (.wrap "unable to get entity: " e) ∧
      (GoError.wrap "unable to get entity: " e).unwrap = some e) ∧
    (∀ env2 db2 fs2 p (id : String) (data : List Nat) (e : GoError),
      fs2.lookup (getFilename db2 p id) = some data →
      env2.readFail fs2 (getFilename db2 p id) = none →
      env2.unmarshal data p = .error e →
      BurrowDB.GetByID env2 db2 fs2 (.ptrV p) id =
        .failed (.wrap "unable to unmarshal data: " e) ∧
      (GoError.wrap "unable to unmarshal data: " e).unwrap = some e) := by
  refine ⟨?_, rfl, rfl, ?_, ?_, ?_, ?_⟩
  · simp only [BurrowDB.Put, hres, hm]
  · intro env2 db2 fs2 r2 idf2 data e hres2 hm2 hmk2
    exact ⟨by simp only [BurrowDB.Put, hres2, hm2, hmk2], rfl⟩
  · intro env2 db2 fs2 r2 idf2 data e hres2 hm2 hmk2 hw2
    exact ⟨by simp only [BurrowDB.Put, hres2, hm2, hmk2, hw2], rfl⟩
  · intro env2 db2 fs2 p id data e hl hr hnis
    exact ⟨GetByID_read_fail env2 db2 fs2 p id data e hl hr hnis, rfl⟩
  · intro env2 db2 fs2 p id data e hl hr hu
    exact ⟨GetByID_unmarshal_fail env2 db2 fs2 p id data e hl hr hu, rfl⟩

/-- C4 witness: the amended statement at the concrete failing codec. -/
theorem C4_amended_error_propagation_witness :
    BurrowDB.Put envBoom db0 fs0 (.structV recW) =
      .res (.error (.format "unable to marshal value: "
        (GoError.base "boom").errString)) fs0 :=
  (C4_amended_error_propagation envBoom db0 fs0 recW ⟨"Num", "ID"⟩
    (.base "boom") rfl rfl).1

/-- C5: an absent path yields exactly the `ErrNoSuchEntity` sentinel; any
other (non-not-exist) read failure yields the distinct wrapped
storage-read error; the two are distinguishable. -/
theorem C5_not_found_distinguished (env : Env) (db : BurrowDB) (fs : FS)
    (p : Rec) (id : String) :
    (fs.lookup (getFilename db p id) = none →
      BurrowDB.GetByID env db fs (.ptrV p) id = .failed ErrNoSuchEntity) ∧
    (∀ (data : List Nat) (e : GoError),
      fs.lookup (getFilename db p id) = some data →
      env.readFail fs (getFilename db p id) = some e →
      e.is osErrNotExist = false →
      BurrowDB.GetByID env db fs (.ptrV p) id =
        .failed (.wrap "unable to get entity: " e)) ∧
    (∀ e, ErrNoSuchEntity ≠ GoError.wrap "unable to get entity: " e) := by
  refine ⟨fun h => GetByID_absent env db fs p id h,
    fun data e hl hr hnis => GetByID_read_fail env db fs p id data e hl hr hnis,
    fun e h => ?_⟩
  simp [ErrNoSuchEntity] at h

/-- C5 witness: reading an identifier never written returns exactly
`ErrNoSuchEntity`. -/
theorem C5_not_found_distinguished_witness :
    BurrowDB.GetByID envRT db0 fs0 (.ptrV freshW) "123" =
      .failed ErrNoSuchEntity :=
  (C5_not_found_distinguished envRT db0 fs0 freshW "123").1 rfl

/-- C6: last-writer-wins.  `Put r1` then `Put r2` for the same type and
identifier token writes both to the same path, the second write fully
replacing the first, and a subsequent `GetByID` for that token yields
`r2`, never `r1`. -/
theorem C6_last_writer_wins (env : Env) (db : BurrowDB) (fs fs1 fs2 : FS)
    (r1 r2 : Rec) (idf1 idf2 : StructField) (data1 data2 : List Nat)
    (k : String) (fresh : Rec)
    (htype : r1.typeName = r2.typeName)
    (hres1 : resolveIDField r1.fields = .ok idf1)
    (hres2 : resolveIDField r2.fields = .ok idf2)
    (hk1 : r1.fieldByName idf1.name = k)
    (hk2 : r2.fieldByName idf2.name = k)
    (hm1 : env.marshal r1 = .ok data1)
    (hm2 : env.marshal r2 = .ok data2)
    (hput1 : BurrowDB.Put env db fs (.structV r1) = .res (.ok ()) fs1)
    (hput2 : BurrowDB.Put env db fs1 (.structV r2) = .res (.ok ()) fs2)
    (hfresh : fresh.typeName = r2.typeName)
    (hread : env.readFail fs2 (entityPath db r2.typeName k) = none)
    (hcodec : env.unmarshal data2 fresh = .ok r2) :
    fs2.lookup (entityPath db r2.typeName k) = some data2 ∧
    BurrowDB.GetByID env db fs2 (.ptrV fresh) k = .got r2 ∧
    (r1 ≠ r2 →
      BurrowDB.GetByID env db fs2 (.ptrV fresh) k ≠ .got r1) := by
  have hs2 := Put_ok_shape env db fs1 r2 idf2 data2 fs2 hres2 hm2 hput2
  rw [hk2] at hs2
  have hl : fs2.lookup (entityPath db r2.typeName k) = some data2 := by
    rw [hs2]
    exact FS.lookup_write_self _ _ _
  have hlf : fs2.lookup (getFilename db fresh k) = some data2 := by
    unfold getFilename
    rw [hfresh]
    exact hl
  have hrf : env.readFail fs2 (getFilename db fresh k) = none := by
    unfold getFilename
    rw [hfresh]
    exact hread
  have hget := GetByID_ok env db fs2 fresh k data2 r2 hlf hrf hcodec
  refine ⟨hl, hget, fun hne12 hgot => ?_⟩
  rw [hget] at hgot
  exact hne12 (GetRes.got.inj hgot).symm

/-- C6 witness: overwriting `Widget` id `123` and reading it back yields
the second record. -/
theorem C6_last_writer_wins_witness :
    fsW2.lookup (entityPath db0 "Widget" "123") = some [2] ∧
    BurrowDB.GetByID envRT db0 fsW2 (.ptrV freshW) "123" = .got recW2 :=
  ⟨(C6_last_writer_wins envRT db0 fs0 fsW fsW2 recW recW2
      ⟨"Num", "ID"⟩ ⟨"Num", "ID"⟩ [1] [2] "123" freshW
      rfl rfl rfl rfl rfl rfl rfl rfl rfl rfl rfl rfl).1,
   (C6_last_writer_wins envRT db0 fs0 fsW fsW2 recW recW2
      ⟨"Num", "ID"⟩ ⟨"Num", "ID"⟩ [1] [2] "123" freshW
      rfl rfl rfl rfl rfl rfl rfl rfl rfl rfl rfl rfl).2.1⟩

/-- C7: for every non-nil value whose runtime kind is not a struct (a
pointer, primitive, slice, map, ... at top level), `Put` fails with
`ErrInvalidValueType` before any other step: the result holds for every
environment (so neither the codec nor the byte store is consulted) and
the byte store is returned unchanged. -/
theorem C7_invalid_kind_first (env : Env) (db : BurrowDB) (fs : FS)
    (k : OtherKind) (t : String) (p : Rec) :
    BurrowDB.Put env db fs (.otherV k t) =
      .res (.error ErrInvalidValueType) fs ∧
    BurrowDB.Put env db fs (.ptrV p) =
      .res (.error ErrInvalidValueType) fs :=
  ⟨rfl, rfl⟩

/-- C8: `GetByID` performs no identifier-resolution step: its result is
never the no-identifier or multiple-identifiers sentinel, whatever the
destination's fields, and the derived path depends on the destination
only through its element type name (and the supplied id). -/
theorem C8_no_resolution_on_get (env : Env) (db : BurrowDB) (fs : FS)
    (p : Rec) (id : String) :
    BurrowDB.GetByID env db fs (.ptrV p) id ≠ .failed ErrNoIDField ∧
    BurrowDB.GetByID env db fs (.ptrV p) id ≠ .failed ErrMultipleIDFields ∧
    ∀ q : Rec, q.typeName = p.typeName →
      getFilename db q id = getFilename db p id := by
  have hshape := GetByID_ptr_shape env db fs p id
  refine ⟨?_, ?_, fun q hq => by unfold getFilename; rw [hq]⟩
  · rcases hshape with h | ⟨e, h⟩ | ⟨e, h⟩ | ⟨r, h⟩ <;> rw [h] <;>
      simp [ErrNoSuchEntity, ErrNoIDField]
  · rcases hshape with h | ⟨e, h⟩ | ⟨e, h⟩ | ⟨r, h⟩ <;> rw [h] <;>
      simp [ErrNoSuchEntity, ErrMultipleIDFields]

/-- C8 witness: two destinations of the same element type derive the same
path, and a concrete call returns neither resolution error. -/
theorem C8_no_resolution_on_get_witness :
    getFilename db0 recW2 "123" = getFilename db0 recW "123" :=
  (C8_no_resolution_on_get envRT db0 fs0 recW "123").2.2 recW2 rfl

/-- C9: the untyped nil interface crashes the public interface instead of
returning an error: `reflect.TypeOf(nil)` is the nil type descriptor and
the `.Kind()` call on it panics, in `Put` and in `GetByID` alike. -/
theorem C9_nil_interface_panics (env : Env) (db : BurrowDB) (fs : FS)
    (id : String) :
    BurrowDB.Put env db fs .nilV = .panicked ∧
    BurrowDB.GetByID env db fs .nilV id = .panicked :=
  ⟨rfl, rfl⟩

/-- C10: failure atomicity of `Put` before storage.  Whenever `Put`
returns the invalid-value-kind, no-identifier, multiple-identifiers, or
encoding error, the byte store is unchanged: no type directory is
created and no file is written. -/
theorem C10_failure_atomicity (env : Env) (db : BurrowDB) (fs : FS)
    (v : GoVal) (e : GoError) (fs2 : FS)
    (hput : BurrowDB.Put env db fs v = .res (.error e) fs2)
    (he : e = ErrInvalidValueType ∨ e = ErrNoIDField ∨
      e = ErrMultipleIDFields ∨
      ∃ m, e = .format "unable to marshal value: " m) :
    fs2 = fs := by
  cases v with
  | nilV => simp [BurrowDB.Put] at hput
  | ptrV p =>
    simp only [BurrowDB.Put, PutRes.res.injEq] at hput
    exact hput.2.symm
  | otherV k t =>
    simp only [BurrowDB.Put, PutRes.res.injEq] at hput
    exact hput.2.symm
  | structV r =>
    cases hres : resolveIDField r.fields with
    | error e0 =>
      rw [Put_structV_resolveErr env db fs r e0 hres] at hput
      simp only [PutRes.res.injEq] at hput
      exact hput.2.symm
    | ok idf =>
      cases hm : env.marshal r with
      | error mErr =>
        simp only [BurrowDB.Put, hres, hm, PutRes.res.injEq] at hput
        exact hput.2.symm
      | ok data =>
        cases hmk : env.mkdirFail fs (typeDirOf db r.typeName) with
        | some e0 =>
          simp only [BurrowDB.Put, hres, hm, hmk, PutRes.res.injEq] at hput
          have he2 : e = .wrap "unable to create type dir: " e0 :=
            (Except.error.inj hput.1).symm
          rcases he with h | h | h | ⟨m, h⟩ <;> rw [he2] at h <;>
            simp [ErrInvalidValueType, ErrNoIDField,
              ErrMultipleIDFields] at h
        | none =>
          cases hw : env.writeFail (fs.mkdirAll (typeDirOf db r.typeName))
              (entityPath db r.typeName (r.fieldByName idf.name)) data with
          | some e0 =>
            simp only [BurrowDB.Put, hres, hm, hmk, hw,
              PutRes.res.injEq] at hput
            have he2 : e = .wrap "unable to write file: " e0 :=
              (Except.error.inj hput.1).symm
            rcases he with h | h | h | ⟨m, h⟩ <;> rw [he2] at h <;>
              simp [ErrInvalidValueType, ErrNoIDField,
                ErrMultipleIDFields] at h
          | none =>
            simp only [BurrowDB.Put, hres, hm, hmk, hw,
              PutRes.res.injEq] at hput
            exact absurd hput.1 (by simp)

/-- C10 witness: a record with no identifier field leaves the empty byte
store untouched. -/
theorem C10_failure_atomicity_witness :
    BurrowDB.Put envRT db0 fs0 (.structV recEmpty) =
      .res (.error ErrNoIDField) fs0 ∧
    fs0 = fs0 :=
  ⟨rfl, C10_failure_atomicity envRT db0 fs0 (.structV recEmpty)
    ErrNoIDField fs0 rfl (Or.inr (Or.inl rfl))⟩

end BurrowDBModel
